import Mathlib

/-!
Shallow embedding of the realsense-rust ownership layer: the `Frame<Kind>`
wrapper with its composite decomposition and typed extension (src/frame.rs,
src/frame/composite.rs) and the `Sensor` wrapper with its option access and
stream-profile listing (src/sensor.rs).

Native SDK calls are modelled as environment records: each foreign function
that the embedded code invokes is a field returning `Except RsError v`,
standing for the out-parameter error-slot protocol.  Functions that the
claims constrain in terms of which native calls happen additionally return
a trace (a `List` of call records), so that properties such as "without
invoking the native write" or "no new handle is created" are statable.
-/

namespace RealSense

/-- A native error surfaced through the error-slot protocol, carrying the
human-readable message (crate error type, used via `check_rs2_error!` /
`ErrorChecker::check`). -/
structure RsError where
  message : String
  deriving Repr, DecidableEq

/-- The frame extension identifiers consumed by the frame markers
(`kind::Extension` values named in src/frame.rs). -/
inductive Extension where
  | compositeFrame
  | videoFrame
  | motionFrame
  | depthFrame
  | disparityFrame
  | poseFrame
  | points
  deriving Repr, DecidableEq

/-- The type-level frame kind markers of `frame::marker` (src/frame.rs
lines 18-90): `Any` plus the non-any kinds, each of which carries an
associated `Extension`. -/
inductive FrameKind where
  | any
  | composite
  | video
  | motion
  | depth
  | disparity
  | pose
  | points
  deriving Repr, DecidableEq

/-- The `NonAnyFrameKind::TYPE` association (src/frame.rs): every kind but
`Any` has an extension identifier. -/
def FrameKind.type : FrameKind → Option Extension
  | .any => none
  | .composite => some .compositeFrame
  | .video => some .videoFrame
  | .motion => some .motionFrame
  | .depth => some .depthFrame
  | .disparity => some .disparityFrame
  | .pose => some .poseFrame
  | .points => some .points

/-- The frame kind tagged by a given extension (inverse of
`FrameKind.type` on the non-any kinds). -/
def Extension.kind : Extension → FrameKind
  | .compositeFrame => .composite
  | .videoFrame => .video
  | .motionFrame => .motion
  | .depthFrame => .depth
  | .disparityFrame => .disparity
  | .poseFrame => .pose
  | .points => .points

/-- `Frame<Kind>` (src/frame.rs lines 92-99): a kind-tagged wrapper holding
one non-null native frame handle, modelled as a `Nat` pointer. -/
structure Frame (k : FrameKind) where
  ptr : Nat
  deriving Repr, DecidableEq

/- ————— Video frames: width / height / resolution (claim C2) ————— -/

/-- `base::Resolution` as used by `Frame::<Video>::resolution`. -/
structure Resolution where
  width : Nat
  height : Nat
  deriving Repr, DecidableEq

/-- Native environment for a single video frame: results of
`rs2_get_frame_width` and `rs2_get_frame_height` on its handle. -/
structure VideoEnv where
  getFrameWidth : Except RsError Nat
  getFrameHeight : Except RsError Nat

/-- `Frame::<Video>::width` (src/frame.rs lines 311-319): returns the
native width query result. -/
def Frame.width (_f : Frame .video) (env : VideoEnv) : Except RsError Nat :=
  env.getFrameWidth

/-- `Frame::<Video>::height` (src/frame.rs lines 321-329): returns the
native height query result. -/
def Frame.height (_f : Frame .video) (env : VideoEnv) : Except RsError Nat :=
  env.getFrameHeight

/-- `Frame::<Video>::resolution` (src/frame.rs lines 304-309).  The source
reads `let width = self.width()?; let height = self.width()?;` — the
second query is `width()` again, not `height()`. -/
def Frame.resolution (f : Frame .video) (env : VideoEnv) : Except RsError Resolution :=
  match f.width env with
  | .error e => .error e
  | .ok width =>
    match f.width env with
    | .error e => .error e
    | .ok height => .ok { width := width, height := height }

/-- A video frame whose native queries report width 640 and height 480. -/
def videoEnv640x480 : VideoEnv :=
  { getFrameWidth := .ok 640, getFrameHeight := .ok 480 }

/-- Claim C2: the claim states `resolution()` returns height from
`height()`.  On a frame reporting width 640, height 480, the code returns
resolution 640×640: `resolution` calls `width()` twice, so its height
component is the width, contradicting the claim (code bug, spec is the
explicit intent). -/
theorem resolution_height_is_width :
    Frame.resolution ⟨1⟩ videoEnv640x480 = .ok { width := 640, height := 640 } ∧
    Frame.height ⟨1⟩ videoEnv640x480 = .ok 480 ∧
    Frame.resolution ⟨1⟩ videoEnv640x480 ≠ .ok { width := 640, height := 480 } := by
  refine ⟨rfl, rfl, ?_⟩
  intro h
  simp [Frame.resolution, Frame.width, videoEnv640x480] at h

/- ————— Motion frames: get_motion_data (claim C3) ————— -/

/-- Native environment for a motion frame: the byte buffer produced by
`Frame::data` (`rs2_get_frame_data_size` + `rs2_get_frame_data`), as the
list of bytes of the frame's buffer. -/
structure MotionEnv where
  frameData : Except RsError (List Nat)

/-- `Frame::<Motion>::get_motion_data` (src/frame.rs lines 429-438).  The
source transmutes the byte slice and reads three consecutive `f32`s from
it unconditionally — bytes 0 through 11 — with no length check.  A read at
an index past the buffer end has no defined value and is modelled as
`none`; the twelve reads are performed whenever `data()` succeeds,
whatever the buffer length. -/
def Frame.get_motion_data (_f : Frame .motion) (env : MotionEnv) :
    Except RsError (List (Option Nat)) :=
  match env.frameData with
  | .error e => .error e
  | .ok bytes => .ok ((List.range 12).map fun i => bytes[i]?)

/-- Claim C3: the claim states a buffer shorter than 12 bytes yields an
error before any reinterpretation.  On a 0-byte buffer the code instead
succeeds and performs all twelve byte reads out of bounds (code bug: the
source has no length check before the transmute). -/
theorem get_motion_data_reads_past_empty_buffer :
    Frame.get_motion_data ⟨1⟩ { frameData := .ok [] } =
      .ok (List.replicate 12 (none : Option Nat)) := by
  rfl

/- ————— Sensor construction and destruction (claim C1) ————— -/

/-- `SensorConstructionError` (src/sensor.rs lines 18-24). -/
inductive SensorConstructionError where
  | couldNotGenerateStreamProfileList (msg : String)
  | couldNotGetSensorFromList (msg : String)
  deriving Repr, DecidableEq

/-- Native calls made by sensor construction and destruction. -/
inductive SensorNativeCall where
  | getStreamProfiles (sensorPtr : Nat)
  | createSensor (listPtr : Nat) (index : Int)
  | deleteStreamProfilesList (listPtr : Nat)
  | deleteSensor (sensorPtr : Nat)
  deriving Repr, DecidableEq

/-- `Sensor` (src/sensor.rs lines 26-30): the sensor handle, the eagerly
fetched stream-profile-list handle, and the `should_drop` flag. -/
structure Sensor where
  sensor_ptr : Nat
  stream_profiles_ptr : Nat
  should_drop : Bool
  deriving Repr, DecidableEq

/-- Native environment for sensor construction: results of
`rs2_get_stream_profiles` per sensor pointer and `rs2_create_sensor` per
(list pointer, index). -/
structure SensorListEnv where
  getStreamProfiles : Nat → Except RsError Nat
  createSensor : Nat → Int → Except RsError Nat

/-- `impl Drop for Sensor` (src/sensor.rs lines 32-39): the destructor
unconditionally calls `rs2_delete_stream_profiles_list` and then
`rs2_delete_sensor`; the `should_drop` field is not consulted. -/
def Sensor.drop (s : Sensor) : List SensorNativeCall :=
  [.deleteStreamProfilesList s.stream_profiles_ptr, .deleteSensor s.sensor_ptr]

/-- `Sensor::try_from` (src/sensor.rs lines 43-63): wraps a sensor pointer
the caller does not own, fetching the stream-profile list; on success the
sensor is built with `should_drop: false`. -/
def Sensor.tryFrom (env : SensorListEnv) (sensor_ptr : Nat) :
    Except SensorConstructionError Sensor :=
  match env.getStreamProfiles sensor_ptr with
  | .error e => .error (.couldNotGenerateStreamProfileList e.message)
  | .ok profiles_ptr =>
    .ok { sensor_ptr := sensor_ptr, stream_profiles_ptr := profiles_ptr, should_drop := false }

/-- `Sensor::try_create` (src/sensor.rs lines 82-97): creates a sensor
from a sensor list and an index via `rs2_create_sensor`, delegates to
`try_from`, then sets `should_drop = true`. -/
def Sensor.tryCreate (env : SensorListEnv) (sensor_list : Nat) (index : Int) :
    Except SensorConstructionError Sensor :=
  match env.createSensor sensor_list index with
  | .error e => .error (.couldNotGetSensorFromList e.message)
  | .ok sensor_ptr =>
    match Sensor.tryFrom env sensor_ptr with
    | .error e => .error e
    | .ok s => .ok { s with should_drop := true }

/-- An environment in which wrapping sensor pointer 5 fetches stream
profile list 7, and creating from a list yields sensor pointer 5. -/
def sensorEnv1 : SensorListEnv :=
  { getStreamProfiles := fun _ => .ok 7, createSensor := fun _ _ => .ok 5 }

/-- Claim C1: the claim states the destructor of a `try_from`-constructed
(borrowed, `should_drop = false`) sensor deletes only the profile list,
not the sensor handle.  The code's `Drop` never reads `should_drop` and
deletes both handles on both construction paths, so the borrowed sensor
handle 5 is deleted too (code bug: the source's own doc comment says the
`try_from` case must not drop the sensor pointer). -/
theorem sensor_drop_deletes_borrowed_handle :
    Sensor.tryFrom sensorEnv1 5 =
      .ok { sensor_ptr := 5, stream_profiles_ptr := 7, should_drop := false } ∧
    Sensor.drop { sensor_ptr := 5, stream_profiles_ptr := 7, should_drop := false } =
      [.deleteStreamProfilesList 7, .deleteSensor 5] ∧
    SensorNativeCall.deleteSensor 5 ∈
      Sensor.drop { sensor_ptr := 5, stream_profiles_ptr := 7, should_drop := false } ∧
    Sensor.tryCreate sensorEnv1 3 0 =
      .ok { sensor_ptr := 5, stream_profiles_ptr := 7, should_drop := true } := by
  refine ⟨rfl, rfl, ?_, rfl⟩
  simp [Sensor.drop]

/- ————— Sensor options: setOption (claim C7) ————— -/

/-- `OptionSetError` (crate `kind` module; variants as constructed in
src/sensor.rs lines 152-173). -/
inductive OptionSetError where
  | optionNotSupported
  | optionIsReadOnly
  | couldNotSetOption (msg : String)
  deriving Repr, DecidableEq

/-- Native option calls made by a sensor, recorded for tracing. -/
inductive OptionCall where
  | supportsOption (opt : Nat)
  | isOptionReadOnly (opt : Nat)
  | setOption (opt : Nat) (value : Int)
  deriving Repr, DecidableEq

/-- Native environment for one sensor's options: raw results of
`rs2_supports_option`, `rs2_is_option_read_only` (both returning a C int)
and `rs2_set_option`, per option identifier. -/
structure OptionEnv where
  supportsOption : Nat → Except RsError Int
  isOptionReadOnly : Nat → Except RsError Int
  setOption : Nat → Int → Except RsError Unit

/-- `Sensor::supports_option` (src/sensor.rs lines 211-226): native query;
a native error degrades to `false`, otherwise the raw value tested
against zero. -/
def Sensor.supports_option (_s : Sensor) (env : OptionEnv) (opt : Nat) :
    Bool × List OptionCall :=
  match env.supportsOption opt with
  | .error _ => (false, [.supportsOption opt])
  | .ok val => (val != 0, [.supportsOption opt])

/-- `Sensor::is_option_read_only` (src/sensor.rs lines 228-243): same
shape as `supports_option`. -/
def Sensor.is_option_read_only (_s : Sensor) (env : OptionEnv) (opt : Nat) :
    Bool × List OptionCall :=
  match env.isOptionReadOnly opt with
  | .error _ => (false, [.isOptionReadOnly opt])
  | .ok val => (val != 0, [.isOptionReadOnly opt])

/-- `Sensor::set_option` (src/sensor.rs lines 152-173): first
`supports_option`, then `is_option_read_only`, then the native
`rs2_set_option` write, each failure mapped to its own error kind. -/
def Sensor.setOption (s : Sensor) (env : OptionEnv) (opt : Nat) (value : Int) :
    Except OptionSetError Unit × List OptionCall :=
  let sup := s.supports_option env opt
  if !sup.1 then (.error .optionNotSupported, sup.2)
  else
    let ro := s.is_option_read_only env opt
    if ro.1 then (.error .optionIsReadOnly, sup.2 ++ ro.2)
    else
      match env.setOption opt value with
      | .error e =>
        (.error (.couldNotSetOption e.message), sup.2 ++ ro.2 ++ [.setOption opt value])
      | .ok _ => (.ok (), sup.2 ++ ro.2 ++ [.setOption opt value])

/-- Claim C7: `set_option` checks the three failure conditions in order:
unsupported yields the not-supported kind with no native write in the
trace; supported but read-only yields the read-only kind with no native
write; supported and writable with a rejected value yields the
native-error kind, the write having been attempted. -/
theorem setOption_checks_in_order (s : Sensor) (env : OptionEnv) (opt : Nat) (value : Int) :
    ((s.supports_option env opt).1 = false →
      (s.setOption env opt value).1 = .error .optionNotSupported ∧
      OptionCall.setOption opt value ∉ (s.setOption env opt value).2)
  ∧ ((s.supports_option env opt).1 = true → (s.is_option_read_only env opt).1 = true →
      (s.setOption env opt value).1 = .error .optionIsReadOnly ∧
      OptionCall.setOption opt value ∉ (s.setOption env opt value).2)
  ∧ (∀ e, (s.supports_option env opt).1 = true → (s.is_option_read_only env opt).1 = false →
      env.setOption opt value = .error e →
      (s.setOption env opt value).1 = .error (.couldNotSetOption e.message) ∧
      OptionCall.setOption opt value ∈ (s.setOption env opt value).2) := by
  refine ⟨?_, ?_, ?_⟩
  · intro hsup
    constructor
    · simp [Sensor.setOption, hsup]
    · simp only [Sensor.setOption, hsup]
      cases h : env.supportsOption opt <;> simp [Sensor.supports_option, h]
  · intro hsup hro
    constructor
    · simp [Sensor.setOption, hsup, hro]
    · simp only [Sensor.setOption, hsup, hro]
      cases h : env.supportsOption opt <;> cases h' : env.isOptionReadOnly opt <;>
        simp [Sensor.supports_option, Sensor.is_option_read_only, h, h']
  · intro e hsup hro hset
    constructor
    · simp [Sensor.setOption, hsup, hro, hset]
    · simp [Sensor.setOption, hsup, hro, hset]

/-- Support query of `optionEnv1`: every option but 0 is supported. -/
def supportsOption1 : Nat → Except RsError Int :=
  fun opt => .ok (if opt == 0 then 0 else 1)

/-- Read-only query of `optionEnv1`: only option 1 is read-only. -/
def isOptionReadOnly1 : Nat → Except RsError Int :=
  fun opt => .ok (if opt == 1 then 1 else 0)

/-- Native write of `optionEnv1`: rejects every value. -/
def setOption1 : Nat → Int → Except RsError Unit :=
  fun _ _ => .error ⟨"rejected"⟩

/-- An option environment: option 0 unsupported; option 1 supported and
read-only; option 2 supported, writable, but the native write rejects the
value. -/
def optionEnv1 : OptionEnv :=
  { supportsOption := supportsOption1
  , isOptionReadOnly := isOptionReadOnly1
  , setOption := setOption1 }

/-- A sensor value used in witnesses. -/
def sensor1 : Sensor :=
  { sensor_ptr := 5, stream_profiles_ptr := 7, should_drop := false }

/-- Witness for C7: all three branches observed at concrete inputs. -/
theorem setOption_checks_in_order_witness :
    ((sensor1.setOption optionEnv1 0 9).1 = .error .optionNotSupported ∧
      OptionCall.setOption 0 9 ∉ (sensor1.setOption optionEnv1 0 9).2)
  ∧ ((sensor1.setOption optionEnv1 1 9).1 = .error .optionIsReadOnly ∧
      OptionCall.setOption 1 9 ∉ (sensor1.setOption optionEnv1 1 9).2)
  ∧ ((sensor1.setOption optionEnv1 2 9).1 = .error (.couldNotSetOption "rejected") ∧
      OptionCall.setOption 2 9 ∈ (sensor1.setOption optionEnv1 2 9).2) :=
  ⟨(setOption_checks_in_order sensor1 optionEnv1 0 9).1 (by decide),
   (setOption_checks_in_order sensor1 optionEnv1 1 9).2.1 (by decide) (by decide),
   (setOption_checks_in_order sensor1 optionEnv1 2 9).2.2 ⟨"rejected"⟩ (by decide) (by decide)
     (by simp [optionEnv1, setOption1])⟩

/- ————— Sensor stream profiles (claim C8) ————— -/

/-- `StreamProfile` (external entity per the spec; the boundary type
produced by `StreamProfile::try_from` on a validated non-null pointer). -/
structure StreamProfile where
  ptr : Nat
  deriving Repr, DecidableEq

/-- Native environment for one sensor's cached stream-profile list:
`rs2_get_stream_profiles_count`, `rs2_get_stream_profile` per index, and
the fallible `StreamProfile::try_from` conversion per profile pointer. -/
structure ProfileListEnv where
  getStreamProfilesCount : Except RsError Nat
  getStreamProfile : Nat → Except RsError Nat
  streamProfileTryFrom : Nat → Except RsError StreamProfile

/-- The loop body of `Sensor::stream_profiles` (src/sensor.rs lines
257-277): per index, a fetch error means `continue`, a conversion error
means `continue`, a converted profile is pushed. -/
def streamProfilesLoop (env : ProfileListEnv) : Nat → Nat → List StreamProfile
  | _, 0 => []
  | i, rem + 1 =>
    match env.getStreamProfile i with
    | .error _ => streamProfilesLoop env (i + 1) rem
    | .ok p =>
      match env.streamProfileTryFrom p with
      | .error _ => streamProfilesLoop env (i + 1) rem
      | .ok sp => sp :: streamProfilesLoop env (i + 1) rem

/-- `Sensor::stream_profiles` (src/sensor.rs lines 245-280): a count-query
error returns the empty partial result; otherwise the loop runs over
indices `0..len`. -/
def Sensor.stream_profiles (_s : Sensor) (env : ProfileListEnv) : List StreamProfile :=
  match env.getStreamProfilesCount with
  | .error _ => []
  | .ok len => streamProfilesLoop env 0 len

/-- The successfully fetched-and-converted profile at one index, if any. -/
def profileAt (env : ProfileListEnv) (i : Nat) : Option StreamProfile :=
  match env.getStreamProfile i with
  | .error _ => none
  | .ok p =>
    match env.streamProfileTryFrom p with
    | .error _ => none
    | .ok sp => some sp

/-- The profile loop collects exactly the per-index successes. -/
theorem streamProfilesLoop_eq (env : ProfileListEnv) :
    ∀ rem i, streamProfilesLoop env i rem = (List.range' i rem).filterMap (profileAt env) := by
  intro rem
  induction rem with
  | zero => intro i; simp [streamProfilesLoop]
  | succ r ih =>
    intro i
    have hr : List.range' i (r + 1) = i :: List.range' (i + 1) r := rfl
    rw [hr, List.filterMap_cons]
    cases h : env.getStreamProfile i with
    | error e =>
      have hp : profileAt env i = none := by simp [profileAt, h]
      simp [streamProfilesLoop, h, hp, ih]
    | ok p =>
      cases h' : env.streamProfileTryFrom p with
      | error e =>
        have hp : profileAt env i = none := by simp [profileAt, h, h']
        simp [streamProfilesLoop, h, h', hp, ih]
      | ok sp =>
        have hp : profileAt env i = some sp := by simp [profileAt, h, h']
        simp [streamProfilesLoop, h, h', hp, ih]

/-- Claim C8: `stream_profiles()` iterates the cached profile list,
skipping every element whose fetch or conversion fails and returning the
partial list of successes (never an error); in particular, with 5
profiles of which exactly one fails conversion, the result has 4
elements. -/
theorem stream_profiles_skips_failures (s : Sensor) (env : ProfileListEnv) :
    (∀ n, env.getStreamProfilesCount = .ok n →
      s.stream_profiles env = (List.range n).filterMap (profileAt env))
  ∧ (∀ j p err, env.getStreamProfilesCount = .ok 5 → j < 5 →
      (∀ i, i < 5 → i ≠ j → ∃ sp, profileAt env i = some sp) →
      env.getStreamProfile j = .ok p → env.streamProfileTryFrom p = .error err →
      (s.stream_profiles env).length = 4) := by
  have hchar : ∀ n, env.getStreamProfilesCount = .ok n →
      s.stream_profiles env = (List.range n).filterMap (profileAt env) := by
    intro n hn
    simp only [Sensor.stream_profiles, hn]
    rw [streamProfilesLoop_eq, List.range_eq_range']
  refine ⟨hchar, ?_⟩
  intro j p err h5 hj hok hfetch hconv
  have hbad : profileAt env j = none := by simp [profileAt, hfetch, hconv]
  rw [hchar 5 h5]
  have hr : List.range 5 = [0, 1, 2, 3, 4] := rfl
  rw [hr]
  interval_cases j
  · obtain ⟨a1, h1⟩ := hok 1 (by decide) (by decide)
    obtain ⟨a2, h2⟩ := hok 2 (by decide) (by decide)
    obtain ⟨a3, h3⟩ := hok 3 (by decide) (by decide)
    obtain ⟨a4, h4⟩ := hok 4 (by decide) (by decide)
    simp [List.filterMap_cons, hbad, h1, h2, h3, h4]
  · obtain ⟨a1, h1⟩ := hok 0 (by decide) (by decide)
    obtain ⟨a2, h2⟩ := hok 2 (by decide) (by decide)
    obtain ⟨a3, h3⟩ := hok 3 (by decide) (by decide)
    obtain ⟨a4, h4⟩ := hok 4 (by decide) (by decide)
    simp [List.filterMap_cons, hbad, h1, h2, h3, h4]
  · obtain ⟨a1, h1⟩ := hok 0 (by decide) (by decide)
    obtain ⟨a2, h2⟩ := hok 1 (by decide) (by decide)
    obtain ⟨a3, h3⟩ := hok 3 (by decide) (by decide)
    obtain ⟨a4, h4⟩ := hok 4 (by decide) (by decide)
    simp [List.filterMap_cons, hbad, h1, h2, h3, h4]
  · obtain ⟨a1, h1⟩ := hok 0 (by decide) (by decide)
    obtain ⟨a2, h2⟩ := hok 1 (by decide) (by decide)
    obtain ⟨a3, h3⟩ := hok 2 (by decide) (by decide)
    obtain ⟨a4, h4⟩ := hok 4 (by decide) (by decide)
    simp [List.filterMap_cons, hbad, h1, h2, h3, h4]
  · obtain ⟨a1, h1⟩ := hok 0 (by decide) (by decide)
    obtain ⟨a2, h2⟩ := hok 1 (by decide) (by decide)
    obtain ⟨a3, h3⟩ := hok 2 (by decide) (by decide)
    obtain ⟨a4, h4⟩ := hok 3 (by decide) (by decide)
    simp [List.filterMap_cons, hbad, h1, h2, h3, h4]

/-- Count query of `profileEnv1`: the sensor has 5 profiles. -/
def profilesCount1 : Except RsError Nat := .ok 5

/-- Fetch of `profileEnv1`: index i fetches profile pointer i + 10. -/
def getStreamProfile1 : Nat → Except RsError Nat := fun i => .ok (i + 10)

/-- Conversion of `profileEnv1`: pointer 12 (index 2, profile #3) fails
conversion; others convert. -/
def streamProfileTryFrom1 : Nat → Except RsError StreamProfile :=
  fun p => if p == 12 then .error ⟨"bad profile"⟩ else .ok ⟨p⟩

/-- A profile-list environment with 5 profiles where profile #3 (index 2)
fails conversion. -/
def profileEnv1 : ProfileListEnv :=
  { getStreamProfilesCount := profilesCount1
  , getStreamProfile := getStreamProfile1
  , streamProfileTryFrom := streamProfileTryFrom1 }

/-- Witness for C8: on the 5-profile environment with one conversion
failure, the result has 4 elements. -/
theorem stream_profiles_skips_failures_witness :
    (sensor1.stream_profiles profileEnv1).length = 4 :=
  (stream_profiles_skips_failures sensor1 profileEnv1).2 2 12 ⟨"bad profile"⟩ rfl
    (by decide)
    (by
      intro i hi hne
      exact ⟨⟨i + 10⟩, by
        interval_cases i <;> simp_all [profileAt, profileEnv1, getStreamProfile1,
          streamProfileTryFrom1]⟩)
    rfl
    (by simp [profileEnv1, streamProfileTryFrom1])

/- ————— Frame native environment and call traces (claims C4, C5, C6, C10) ————— -/

/-- Native calls made by frame operations, recorded for tracing. -/
inductive FrameCall where
  | isFrameExtendableTo (ptr : Nat) (ext : Extension)
  | embeddedFramesCount (ptr : Nat)
  | extractFrame (ptr : Nat) (index : Nat)
  | releaseFrame (ptr : Nat)
  deriving Repr, DecidableEq

/-- Native environment for frame operations: results of
`rs2_is_frame_extendable_to`, `rs2_embedded_frames_count` and
`rs2_extract_frame` per handle (and extension or index). -/
structure FrameEnv where
  isFrameExtendableTo : Nat → Extension → Except RsError Int
  embeddedFramesCount : Nat → Except RsError Nat
  extractFrame : Nat → Nat → Except RsError Nat

/-- `Frame::<Any>::try_extend_to` (src/frame.rs lines 211-238): queries
extendability to the target kind's extension; a query error propagates;
if extendable, the handle is taken (`Frame::take`, lines 197-201) into a
re-tagged wrapper with the same pointer; otherwise the original wrapper
is handed back.  The trace records every native call made. -/
def Frame.try_extend_to (f : Frame .any) (env : FrameEnv) (e : Extension) :
    Except RsError (Frame e.kind ⊕ Frame .any) × List FrameCall :=
  match env.isFrameExtendableTo f.ptr e with
  | .error err => (.error err, [.isFrameExtendableTo f.ptr e])
  | .ok val =>
    if val != 0 then (.ok (.inl ⟨f.ptr⟩), [.isFrameExtendableTo f.ptr e])
    else (.ok (.inr f), [.isFrameExtendableTo f.ptr e])

/-- Claim C4: when the extendability query succeeds, `try_extend_to`
either re-tags the same handle (output pointer equals input pointer) or
returns the original wrapper unchanged, and in both cases the only
native call in the trace is the single extendability query — no extract,
count or release call, hence no handle created or destroyed. -/
theorem try_extend_to_preserves_handle (f : Frame .any) (env : FrameEnv)
    (e : Extension) (val : Int) (h : env.isFrameExtendableTo f.ptr e = .ok val) :
    (val ≠ 0 →
      f.try_extend_to env e = (.ok (.inl ⟨f.ptr⟩), [.isFrameExtendableTo f.ptr e]))
  ∧ (val = 0 →
      f.try_extend_to env e = (.ok (.inr f), [.isFrameExtendableTo f.ptr e])) := by
  constructor
  · intro hv
    simp [Frame.try_extend_to, h, hv]
  · intro hv
    simp [Frame.try_extend_to, h, hv]

/-- Extendability oracle used by witnesses: frame 1 is extendable, frame
2 is not. -/
def isFrameExtendableTo1 : Nat → Extension → Except RsError Int :=
  fun p _ => .ok (if p == 1 then 1 else 0)

/-- Count oracle used by witnesses: composite frame 3 holds two embedded
frames, every other handle reports a native error. -/
def embeddedFramesCount1 : Nat → Except RsError Nat :=
  fun p => if p == 3 then .ok 2 else .error ⟨"count failed"⟩

/-- Extraction oracle used by witnesses: index i of composite frame 3
extracts pointer i + 20. -/
def extractFrame1 : Nat → Nat → Except RsError Nat :=
  fun p i => if p == 3 then .ok (i + 20) else .error ⟨"extract failed"⟩

/-- An environment for the extendability witness: frame 1 is extendable
to the video kind, frame 2 is not. -/
def extendEnv1 : FrameEnv :=
  { isFrameExtendableTo := isFrameExtendableTo1
  , embeddedFramesCount := embeddedFramesCount1
  , extractFrame := extractFrame1 }

/-- Witness for C4: both branches at concrete frames. -/
theorem try_extend_to_preserves_handle_witness :
    (Frame.try_extend_to ⟨1⟩ extendEnv1 .videoFrame =
      (.ok (.inl ⟨1⟩), [.isFrameExtendableTo 1 .videoFrame]))
  ∧ (Frame.try_extend_to ⟨2⟩ extendEnv1 .videoFrame =
      (.ok (.inr ⟨2⟩), [.isFrameExtendableTo 2 .videoFrame])) :=
  ⟨(try_extend_to_preserves_handle ⟨1⟩ extendEnv1 .videoFrame 1
      (by simp [extendEnv1, isFrameExtendableTo1])).1 (by decide),
   (try_extend_to_preserves_handle ⟨2⟩ extendEnv1 .videoFrame 0
      (by simp [extendEnv1, isFrameExtendableTo1])).2 rfl⟩

/- ————— Composite frames: len, get (claim C6) ————— -/

/-- `Frame::<Composite>::len` (src/frame.rs lines 241-252): the embedded
frame count query, error propagated. -/
def Frame.len (f : Frame .composite) (env : FrameEnv) :
    Except RsError Nat × List FrameCall :=
  match env.embeddedFramesCount f.ptr with
  | .error e => (.error e, [.embeddedFramesCount f.ptr])
  | .ok n => (.ok n, [.embeddedFramesCount f.ptr])

/-- `Frame::<Composite>::get` (src/frame.rs lines 254-271): queries the
count first; an out-of-bounds index returns `Ok(None)`; otherwise one
extraction call wraps the sub-frame as a new owned Any-kind frame. -/
def Frame.get (f : Frame .composite) (env : FrameEnv) (index : Nat) :
    Except RsError (Option (Frame .any)) × List FrameCall :=
  match f.len env with
  | (.error e, tr) => (.error e, tr)
  | (.ok len, tr) =>
    if index ≥ len then (.ok none, tr)
    else
      match env.extractFrame f.ptr index with
      | .error e => (.error e, tr ++ [.extractFrame f.ptr index])
      | .ok p => (.ok (some ⟨p⟩), tr ++ [.extractFrame f.ptr index])

/-- Claim C6: when the count query reports `n`, `get(index)` returns
`Ok(None)` for every `index ≥ n` and `Ok(Some)` of the extracted
sub-frame for every `index < n` whose extraction succeeds (for every
count, hence for counts 0, 1 and greater than 1); `get` never issues a
release call, so the composite stays valid and, being a pure function of
the unconsumed frame, repeated queries return the same result. -/
theorem composite_get_in_bounds (f : Frame .composite) (env : FrameEnv) (n : Nat)
    (hcount : env.embeddedFramesCount f.ptr = .ok n) :
    (∀ index, n ≤ index → (f.get env index).1 = .ok none)
  ∧ (∀ index p, index < n → env.extractFrame f.ptr index = .ok p →
      (f.get env index).1 = .ok (some ⟨p⟩))
  ∧ (∀ index q, FrameCall.releaseFrame q ∉ (f.get env index).2) := by
  refine ⟨?_, ?_, ?_⟩
  · intro index hge
    simp [Frame.get, Frame.len, hcount, hge]
  · intro index p hlt hex
    simp [Frame.get, Frame.len, hcount, Nat.not_le.mpr hlt, hex]
  · intro index q
    simp only [Frame.get, Frame.len]
    cases h : env.embeddedFramesCount f.ptr with
    | error e => simp
    | ok m =>
      by_cases hge : index ≥ m
      · simp [hge]
      · simp only [hge, if_false]
        cases h' : env.extractFrame f.ptr index <;> simp

/-- An environment for the composite claims: composite frame 3 has two
embedded frames at pointers 20 and 21. -/
def compositeEnv1 : FrameEnv :=
  { isFrameExtendableTo := isFrameExtendableTo1
  , embeddedFramesCount := embeddedFramesCount1
  , extractFrame := extractFrame1 }

/-- Witness for C6: on a 2-element composite, `get 2` is `Ok(None)`,
`get 0` extracts pointer 20, and no release call appears. -/
theorem composite_get_in_bounds_witness :
    (Frame.get ⟨3⟩ compositeEnv1 2).1 = .ok none
  ∧ (Frame.get ⟨3⟩ compositeEnv1 0).1 = .ok (some ⟨20⟩)
  ∧ FrameCall.releaseFrame 3 ∉ (Frame.get ⟨3⟩ compositeEnv1 0).2 :=
  ⟨(composite_get_in_bounds ⟨3⟩ compositeEnv1 2
      (by simp [compositeEnv1, embeddedFramesCount1])).1 2 (by decide),
   (composite_get_in_bounds ⟨3⟩ compositeEnv1 2
      (by simp [compositeEnv1, embeddedFramesCount1])).2.1 0 20 (by decide)
      (by simp [compositeEnv1, extractFrame1]),
   (composite_get_in_bounds ⟨3⟩ compositeEnv1 2
      (by simp [compositeEnv1, embeddedFramesCount1])).2.2 0 3⟩

/- ————— Composite consuming iterator (claims C5, C10) ————— -/

/-- `CompositeFrameIntoIter` (src/frame.rs lines 462-468): cached length,
next index, the owned composite handle, and the fused flag. -/
structure CompositeFrameIntoIter where
  len : Nat
  index : Nat
  ptr : Nat
  fused : Bool
  deriving Repr, DecidableEq

/-- `Frame::<Composite>::try_into_iter` (src/frame.rs lines 273-283):
queries the count (error propagated), takes the handle out of the frame
and builds the iterator, fused from the start when the count is 0. -/
def Frame.try_into_iter (f : Frame .composite) (env : FrameEnv) :
    Except RsError CompositeFrameIntoIter × List FrameCall :=
  match f.len env with
  | (.error e, tr) => (.error e, tr)
  | (.ok len, tr) =>
    (.ok { len := len, index := 0, ptr := f.ptr, fused := len == 0 }, tr)

/-- Outcome of a call that may panic (`Result::unwrap`). -/
inductive PanicOr (α : Type) where
  | panicked
  | value (a : α)
  deriving Repr

/-- `impl IntoIterator for Frame<Composite>`, `into_iter` (src/frame.rs
lines 440-447): `self.try_into_iter().unwrap()` — an error from the
count query is unwrapped into a panic. -/
def Frame.into_iter (f : Frame .composite) (env : FrameEnv) :
    PanicOr CompositeFrameIntoIter × List FrameCall :=
  match f.try_into_iter env with
  | (.error _, tr) => (.panicked, tr)
  | (.ok it, tr) => (.value it, tr)

/-- `CompositeFrameIntoIter::next` (src/frame.rs lines 470-502): a fused
iterator yields nothing; otherwise one extraction call is made at the
current index — on error the iterator fuses and yields the error as its
item; on success the index advances, the iterator fuses once the index
reaches the length, and the extracted sub-frame is yielded. -/
def CompositeFrameIntoIter.next (it : CompositeFrameIntoIter) (env : FrameEnv) :
    Option (Except RsError (Frame .any)) × CompositeFrameIntoIter × List FrameCall :=
  if it.fused then (none, it, [])
  else
    match env.extractFrame it.ptr it.index with
    | .error e => (some (.error e), { it with fused := true }, [.extractFrame it.ptr it.index])
    | .ok p =>
      let index' := it.index + 1
      (some (.ok ⟨p⟩),
       { it with index := index', fused := decide (index' ≥ it.len) },
       [.extractFrame it.ptr it.index])

/-- Drives `next` until it yields `none` or the fuel runs out, collecting
the yielded items and the native-call trace. -/
def runIter (env : FrameEnv) : Nat → CompositeFrameIntoIter →
    List (Except RsError (Frame .any)) × List FrameCall
  | 0, _ => ([], [])
  | fuel + 1, it =>
    match it.next env with
    | (none, _, tr) => ([], tr)
    | (some item, it', tr) =>
      let rest := runIter env fuel it'
      (item :: rest.1, tr ++ rest.2)

/-- A fused iterator yields nothing and makes no native call. -/
theorem runIter_fused (env : FrameEnv) (fuel : Nat) (it : CompositeFrameIntoIter)
    (h : it.fused = true) : runIter env fuel it = ([], []) := by
  cases fuel with
  | zero => rfl
  | succ n => simp [runIter, CompositeFrameIntoIter.next, h]

/-- One non-fused step whose extraction succeeds: the index advances and
the iterator fuses exactly when the new index reaches the length. -/
theorem next_extract_ok (env : FrameEnv) (len idx ptr p : Nat)
    (hex : env.extractFrame ptr idx = .ok p) :
    CompositeFrameIntoIter.next ⟨len, idx, ptr, false⟩ env =
      (some (.ok ⟨p⟩), ⟨len, idx + 1, ptr, decide (idx + 1 ≥ len)⟩,
        [.extractFrame ptr idx]) := by
  simp [CompositeFrameIntoIter.next, hex]

/-- One non-fused step whose extraction fails: the iterator fuses and the
error is yielded. -/
theorem next_extract_error (env : FrameEnv) (len idx ptr : Nat) (e : RsError)
    (hex : env.extractFrame ptr idx = .error e) :
    CompositeFrameIntoIter.next ⟨len, idx, ptr, false⟩ env =
      (some (.error e), ⟨len, idx, ptr, true⟩, [.extractFrame ptr idx]) := by
  simp [CompositeFrameIntoIter.next, hex]

/-- Unfolding one yielding step of a run. -/
theorem runIter_next_some (env : FrameEnv) (m : Nat) (it it' : CompositeFrameIntoIter)
    (item : Except RsError (Frame .any)) (tr : List FrameCall)
    (h : it.next env = (some item, it', tr)) :
    runIter env (m + 1) it =
      (item :: (runIter env m it').1, tr ++ (runIter env m it').2) := by
  simp [runIter, h]

/-- A run of the iterator over a block of indices on which every
extraction succeeds yields exactly those extracted frames. -/
theorem runIter_all_ok (env : FrameEnv) (ptr : Nat) (ps : Nat → Nat) :
    ∀ k idx len fuel, len = idx + (k + 1) → fuel ≥ k + 1 →
    (∀ i, idx ≤ i → i < idx + (k + 1) → env.extractFrame ptr i = .ok (ps i)) →
    runIter env fuel ⟨len, idx, ptr, false⟩ =
      ((List.range' idx (k + 1)).map fun i => .ok ⟨ps i⟩,
       (List.range' idx (k + 1)).map fun i => .extractFrame ptr i) := by
  intro k
  induction k with
  | zero =>
    intro idx len fuel hlen hfuel hok
    cases fuel with
    | zero => omega
    | succ m =>
      have hex := hok idx (Nat.le_refl idx) (by omega)
      have hnext := next_extract_ok env len idx ptr (ps idx) hex
      have hd : (decide (idx + 1 ≥ len)) = true := by
        simp only [ge_iff_le, decide_eq_true_eq]
        omega
      rw [hd] at hnext
      rw [runIter_next_some env m _ _ _ _ hnext, runIter_fused env m _ rfl]
      simp [List.range']
  | succ k ih =>
    intro idx len fuel hlen hfuel hok
    cases fuel with
    | zero => omega
    | succ m =>
      have hex := hok idx (Nat.le_refl idx) (by omega)
      have hnext := next_extract_ok env len idx ptr (ps idx) hex
      have hd : (decide (idx + 1 ≥ len)) = false := by
        simp only [ge_iff_le, decide_eq_false_iff_not, not_le]
        omega
      rw [hd] at hnext
      have hrest := ih (idx + 1) len m (by omega) (by omega)
        (fun i h1 h2 => hok i (by omega) (by omega))
      rw [runIter_next_some env m _ _ _ _ hnext, hrest]
      have hr : List.range' idx (k + 1 + 1) = idx :: List.range' (idx + 1) (k + 1) := rfl
      rw [hr]
      simp

/-- A run of the iterator that hits its first extraction error at index
`idx + d` yields the successes before it, then the error as the final
item, and makes no extraction call past that index. -/
theorem runIter_first_error (env : FrameEnv) (ptr : Nat) (ps : Nat → Nat)
    (e : RsError) :
    ∀ d idx len fuel, idx + d < len → fuel ≥ d + 1 →
    (∀ i, idx ≤ i → i < idx + d → env.extractFrame ptr i = .ok (ps i)) →
    env.extractFrame ptr (idx + d) = .error e →
    runIter env fuel ⟨len, idx, ptr, false⟩ =
      ((List.range' idx d).map (fun i => .ok ⟨ps i⟩) ++ [.error e],
       (List.range' idx d).map (fun i => .extractFrame ptr i)
         ++ [.extractFrame ptr (idx + d)]) := by
  intro d
  induction d with
  | zero =>
    intro idx len fuel hlt hfuel hok herr
    cases fuel with
    | zero => omega
    | succ m =>
      simp only [Nat.add_zero] at herr
      have hnext := next_extract_error env len idx ptr e herr
      rw [runIter_next_some env m _ _ _ _ hnext, runIter_fused env m _ rfl]
      simp [List.range']
  | succ d ih =>
    intro idx len fuel hlt hfuel hok herr
    cases fuel with
    | zero => omega
    | succ m =>
      have hex := hok idx (Nat.le_refl idx) (by omega)
      have hnext := next_extract_ok env len idx ptr (ps idx) hex
      have hd : (decide (idx + 1 ≥ len)) = false := by
        simp only [ge_iff_le, decide_eq_false_iff_not, not_le]
        omega
      rw [hd] at hnext
      have herr' : env.extractFrame ptr (idx + 1 + d) = .error e := by
        have harith : idx + 1 + d = idx + (d + 1) := by omega
        rw [harith]
        exact herr
      have hrest := ih (idx + 1) len m (by omega) (by omega)
        (fun i h1 h2 => hok i (by omega) (by omega)) herr'
      rw [runIter_next_some env m _ _ _ _ hnext, hrest]
      have hr : List.range' idx (d + 1) = idx :: List.range' (idx + 1) d := rfl
      have harith : idx + 1 + d = idx + (d + 1) := by omega
      rw [hr, harith]
      simp

/-- Claim C5: consuming iteration over a composite whose count is 0 ends
immediately with no extraction call; when the count is `n` and every
extraction succeeds it yields exactly the `n` extracted items; and when
the first extraction error occurs at index `j` the run yields the `j`
successes, then the error as the final item, with no extraction call
past index `j`. -/
theorem composite_iter_yields_count (f : Frame .composite) (env : FrameEnv) :
    (∀ it, env.embeddedFramesCount f.ptr = .ok 0 →
      (f.try_into_iter env).1 = .ok it →
      ∀ fuel, runIter env fuel it = ([], []))
  ∧ (∀ (n : Nat) (ps : Nat → Nat) (it : CompositeFrameIntoIter),
      env.embeddedFramesCount f.ptr = .ok n →
      (∀ i, i < n → env.extractFrame f.ptr i = .ok (ps i)) →
      (f.try_into_iter env).1 = .ok it →
      runIter env (n + 1) it =
        ((List.range n).map fun i => .ok ⟨ps i⟩,
         (List.range n).map fun i => .extractFrame f.ptr i))
  ∧ (∀ (n j : Nat) (ps : Nat → Nat) (e : RsError) (it : CompositeFrameIntoIter),
      env.embeddedFramesCount f.ptr = .ok n → j < n →
      (∀ i, i < j → env.extractFrame f.ptr i = .ok (ps i)) →
      env.extractFrame f.ptr j = .error e →
      (f.try_into_iter env).1 = .ok it →
      runIter env (n + 1) it =
        ((List.range j).map (fun i => .ok ⟨ps i⟩) ++ [.error e],
         (List.range j).map (fun i => .extractFrame f.ptr i)
           ++ [.extractFrame f.ptr j])) := by
  refine ⟨?_, ?_, ?_⟩
  · intro it hc hit fuel
    have : it = { len := 0, index := 0, ptr := f.ptr, fused := true } := by
      simp [Frame.try_into_iter, Frame.len, hc] at hit
      exact hit.symm
    rw [this]
    exact runIter_fused env fuel _ rfl
  · intro n ps it hc hok hit
    have hit' : it = { len := n, index := 0, ptr := f.ptr, fused := n == 0 } := by
      simp [Frame.try_into_iter, Frame.len, hc] at hit
      exact hit.symm
    cases n with
    | zero =>
      rw [hit']
      rw [runIter_fused env _ _ rfl]
      simp
    | succ k =>
      rw [hit']
      have hz : ((k + 1 : Nat) == 0) = false := by simp
      rw [hz]
      have := runIter_all_ok env f.ptr ps k 0 (k + 1) (k + 1 + 1) (by omega) (by omega)
        (fun i h1 h2 => hok i (by omega))
      simp only [Nat.zero_add] at this
      rw [this]
      rw [List.range_eq_range']
  · intro n j ps e it hc hj hok herr hit
    have hit' : it = { len := n, index := 0, ptr := f.ptr, fused := n == 0 } := by
      simp [Frame.try_into_iter, Frame.len, hc] at hit
      exact hit.symm
    rw [hit']
    have hz : (n == 0) = false := by
      simp
      omega
    rw [hz]
    have := runIter_first_error env f.ptr ps e j 0 n (n + 1) (by omega) (by omega)
      (fun i h1 h2 => hok i (by omega))
      (by simpa using herr)
    simp only [Nat.zero_add] at this
    rw [this]
    rw [List.range_eq_range']

/-- Count oracle reporting 0 embedded frames for every composite. -/
def embeddedFramesCountZero : Nat → Except RsError Nat := fun _ => .ok 0

/-- An environment whose composites are all empty. -/
def zeroCompositeEnv : FrameEnv :=
  { isFrameExtendableTo := isFrameExtendableTo1
  , embeddedFramesCount := embeddedFramesCountZero
  , extractFrame := extractFrame1 }

/-- Extraction oracle that succeeds at index 0 and fails at index 1. -/
def extractFrameFailSecond : Nat → Nat → Except RsError Nat :=
  fun _ i => if i == 0 then .ok 20 else .error ⟨"extract failed"⟩

/-- An environment whose composite frame 3 has two embedded frames but
whose second extraction fails. -/
def failSecondEnv : FrameEnv :=
  { isFrameExtendableTo := isFrameExtendableTo1
  , embeddedFramesCount := embeddedFramesCount1
  , extractFrame := extractFrameFailSecond }

/-- Witness for C5: on composite frame 3 with two embedded frames the
run yields both, on frame 4 (whose count query reports 0 in this
environment) the run is empty with no calls, and on an environment whose
second extraction fails the error is the final item. -/
theorem composite_iter_yields_count_witness :
    runIter compositeEnv1 3
        { len := 2, index := 0, ptr := 3, fused := false } =
      ([.ok ⟨20⟩, .ok ⟨21⟩], [.extractFrame 3 0, .extractFrame 3 1])
  ∧ runIter zeroCompositeEnv 7 { len := 0, index := 0, ptr := 4, fused := true } = ([], [])
  ∧ runIter failSecondEnv 3 { len := 2, index := 0, ptr := 3, fused := false } =
      ([.ok ⟨20⟩, .error ⟨"extract failed"⟩], [.extractFrame 3 0, .extractFrame 3 1]) := by
  refine ⟨?_, ?_, ?_⟩
  · have h := (composite_iter_yields_count ⟨3⟩ compositeEnv1).2.1 2 (fun i => i + 20)
      { len := 2, index := 0, ptr := 3, fused := false }
      (by simp [compositeEnv1, embeddedFramesCount1])
      (by intro i hi
          simp [compositeEnv1, extractFrame1])
      (by simp [Frame.try_into_iter, Frame.len, compositeEnv1, embeddedFramesCount1])
    simpa [List.range] using h
  · have h := (composite_iter_yields_count ⟨4⟩ zeroCompositeEnv).1
      { len := 0, index := 0, ptr := 4, fused := true }
      (by simp [zeroCompositeEnv, embeddedFramesCountZero])
      (by simp [Frame.try_into_iter, Frame.len, zeroCompositeEnv, embeddedFramesCountZero])
      7
    exact h
  · have h := (composite_iter_yields_count ⟨3⟩ failSecondEnv).2.2 2 1 (fun i => i + 20)
      ⟨"extract failed"⟩ { len := 2, index := 0, ptr := 3, fused := false }
      (by simp [failSecondEnv, embeddedFramesCount1])
      (by decide)
      (by intro i hi
          interval_cases i
          simp [failSecondEnv, extractFrameFailSecond])
      (by simp [failSecondEnv, extractFrameFailSecond])
      (by simp [Frame.try_into_iter, Frame.len, failSecondEnv, embeddedFramesCount1])
    simpa [List.range] using h

/-- Claim C10: when the embedded-count query fails, the `IntoIterator`
conversion panics (it unwraps the error from `try_into_iter`) instead of
returning the error. -/
theorem into_iter_panics_on_count_error (f : Frame .composite) (env : FrameEnv)
    (e : RsError) (h : env.embeddedFramesCount f.ptr = .error e) :
    (f.into_iter env).1 = .panicked := by
  simp [Frame.into_iter, Frame.try_into_iter, Frame.len, h]

/-- Witness for C10: frame 4's count query fails in `compositeEnv1`, so
`into_iter` panics there. -/
theorem into_iter_panics_on_count_error_witness :
    (Frame.into_iter ⟨4⟩ compositeEnv1).1 = .panicked :=
  into_iter_panics_on_count_error ⟨4⟩ compositeEnv1 ⟨"count failed"⟩
    (by simp [compositeEnv1, embeddedFramesCount1])

/- ————— CompositeFrame typed scan (claim C9) ————— -/

/-- `CompositeFrame` (src/frame/composite.rs lines 8-10): the wrapper
around one composite frame handle. -/
structure CompositeFrame where
  ptr : Nat
  deriving Repr, DecidableEq

/-- Native environment for one composite frame's scan, generic in the
target frame type `E`: the count query, extraction per index (a raw
pointer, 0 standing for null), the per-pointer extendability query for
`E`'s extension, and the fallible `E::try_from` conversion. -/
structure ScanEnv (E : Type) where
  embeddedFramesCount : Except RsError Nat
  extractFrame : Nat → Except RsError Nat
  isFrameExtendableTo : Nat → Except RsError Int
  tryFromFrame : Nat → Except RsError E

/-- `CompositeFrame::count` (src/frame/composite.rs lines 12-26): a
count-query error degrades to 0. -/
def CompositeFrame.count (E : Type) (_f : CompositeFrame) (env : ScanEnv E) : Nat :=
  match env.embeddedFramesCount with
  | .error _ => 0
  | .ok c => c

/-- The loop body of `frames_of_extension` at one index
(src/frame/composite.rs lines 39-65): extraction error or null pointer
skips; extendability error or a non-matching type skips; a conversion
error skips; a converted frame is kept. -/
def scanStep (E : Type) (env : ScanEnv E) (i : Nat) : Option E :=
  match env.extractFrame i with
  | .error _ => none
  | .ok p =>
    if p = 0 then none
    else
      match env.isFrameExtendableTo p with
      | .error _ => none
      | .ok v =>
        if v != 0 then
          match env.tryFromFrame p with
          | .error _ => none
          | .ok x => some x
        else none

/-- The scan loop of `frames_of_extension`: per index the kept frame, if
any, is pushed. -/
def scanLoop (E : Type) (env : ScanEnv E) : Nat → Nat → List E
  | _, 0 => []
  | i, rem + 1 =>
    match scanStep E env i with
    | none => scanLoop E env (i + 1) rem
    | some x => x :: scanLoop E env (i + 1) rem

/-- `CompositeFrame::frames_of_extension` (src/frame/composite.rs lines
34-72): scans indices `0..count()`, then returns `None` when nothing was
kept and `Some` of the kept frames otherwise. -/
def CompositeFrame.frames_of_extension (E : Type) (f : CompositeFrame)
    (env : ScanEnv E) : Option (List E) :=
  let frames := scanLoop E env 0 (f.count E env)
  if frames.isEmpty then none else some frames

/-- The scan loop collects exactly the per-index kept frames. -/
theorem scanLoop_eq (E : Type) (env : ScanEnv E) :
    ∀ rem i, scanLoop E env i rem = (List.range' i rem).filterMap (scanStep E env) := by
  intro rem
  induction rem with
  | zero => intro i; simp [scanLoop]
  | succ r ih =>
    intro i
    have hr : List.range' i (r + 1) = i :: List.range' (i + 1) r := rfl
    rw [hr, List.filterMap_cons]
    cases h : scanStep E env i with
    | none => simp [scanLoop, h, ih]
    | some x => simp [scanLoop, h, ih]

/-- Claim C9: `frames_of_extension` keeps exactly the sub-frames of
`0..count()` that extract to a non-null pointer, report the target
extension and convert successfully — each per-index failure silently
skipping that index — and returns `None` exactly when no index was kept;
`Some` carries the non-empty list of kept frames in index order. -/
theorem frames_of_extension_none_iff (E : Type) (f : CompositeFrame) (env : ScanEnv E) :
    (f.frames_of_extension E env = none ↔
      ∀ i, i < f.count E env → scanStep E env i = none)
  ∧ (∀ l, f.frames_of_extension E env = some l →
      l ≠ [] ∧ l = (List.range (f.count E env)).filterMap (scanStep E env)) := by
  have hchar : scanLoop E env 0 (f.count E env) =
      (List.range (f.count E env)).filterMap (scanStep E env) := by
    rw [scanLoop_eq, List.range_eq_range']
  have hdef : f.frames_of_extension E env =
      (if ((List.range (f.count E env)).filterMap (scanStep E env)).isEmpty then none
       else some ((List.range (f.count E env)).filterMap (scanStep E env))) := by
    simp only [CompositeFrame.frames_of_extension, hchar]
  have hstep : ((List.range (f.count E env)).filterMap (scanStep E env)).isEmpty = true ↔
      ∀ i, i < f.count E env → scanStep E env i = none := by
    rw [List.isEmpty_iff, List.filterMap_eq_nil_iff]
    constructor
    · intro h i hi
      exact h i (List.mem_range.mpr hi)
    · intro h i hi
      exact h i (List.mem_range.mp hi)
  constructor
  · rw [hdef]
    by_cases hemp : ((List.range (f.count E env)).filterMap (scanStep E env)).isEmpty = true
    · rw [if_pos hemp]
      exact ⟨fun _ => hstep.mp hemp, fun _ => rfl⟩
    · rw [if_neg hemp]
      constructor
      · intro h
        exact absurd h (by simp)
      · intro h
        exact absurd (hstep.mpr h) hemp
  · intro l hl
    rw [hdef] at hl
    by_cases hemp : ((List.range (f.count E env)).filterMap (scanStep E env)).isEmpty = true
    · rw [if_pos hemp] at hl
      exact absurd hl (by simp)
    · rw [if_neg hemp] at hl
      have hl' : (List.range (f.count E env)).filterMap (scanStep E env) = l :=
        Option.some.inj hl
      refine ⟨?_, hl'.symm⟩
      intro hnil
      rw [hl', hnil] at hemp
      exact hemp rfl

/-- Count oracle of `scanEnv1`: two embedded frames. -/
def scanCount1 : Except RsError Nat := .ok 2

/-- Extraction oracle of `scanEnv1`: index i extracts pointer i + 30. -/
def scanExtract1 : Nat → Except RsError Nat := fun i => .ok (i + 30)

/-- Extendability oracle of `scanEnv1`: only pointer 30 matches the
target extension. -/
def scanExtendable1 : Nat → Except RsError Int :=
  fun p => .ok (if p == 30 then 1 else 0)

/-- Conversion oracle of `scanEnv1`: every pointer converts. -/
def scanTryFrom1 : Nat → Except RsError StreamProfile := fun p => .ok ⟨p⟩

/-- A scan environment over `E := StreamProfile`: two embedded frames;
index 0 extracts pointer 30 which matches and converts; index 1 extracts
pointer 31 which does not match. -/
def scanEnv1 : ScanEnv StreamProfile :=
  { embeddedFramesCount := scanCount1
  , extractFrame := scanExtract1
  , isFrameExtendableTo := scanExtendable1
  , tryFromFrame := scanTryFrom1 }

/-- Witness for C9: on `scanEnv1` the scan keeps exactly the frame at
index 0, so the result is `Some` of that one-element list, and it equals
the filtered range. -/
theorem frames_of_extension_none_iff_witness :
    ([⟨30⟩] : List StreamProfile) ≠ [] ∧
    ([⟨30⟩] : List StreamProfile) =
      (List.range (CompositeFrame.count StreamProfile ⟨9⟩ scanEnv1)).filterMap
        (scanStep StreamProfile scanEnv1) :=
  (frames_of_extension_none_iff StreamProfile ⟨9⟩ scanEnv1).2 [⟨30⟩]
    (by simp [CompositeFrame.frames_of_extension, CompositeFrame.count, scanLoop, scanStep,
      scanEnv1, scanCount1, scanExtract1, scanExtendable1, scanTryFrom1])

end RealSense
